import Mathlib

/-!
Shallow embedding of the mithragopi/document-extractor repository
(src/llm_services.py, src/main_fastapi.py, src/app_streamlit.py) and
proofs about its specified behaviour.

Conventions of the embedding:
* Bytes are `List Nat` (each entry a byte value).
* A Python exception that escapes a function is `Except.error msg`
  where `msg` is the text of `str(e)`.
* Third-party effects (the Gemini model call `model.generate_content_async`
  together with `json.loads` on the text it returns) are an explicit input
  `ModelOutcome`, since they are external to the repository.
* FastAPI endpoint handlers are state transformers on `ServerState`
  (the two module-level globals `document_store` and `agent_config`),
  returning the new state and either a response value or an
  `HTTPException` (status code and detail).
-/

set_option autoImplicit false

/-- JSON values, as produced by `json.loads` in llm_services.py.
Objects are association lists of key/value pairs; a dict produced by
`json.loads` has unique keys, and lookups take the first match. -/
inductive Json where
  | null : Json
  | bool : Bool → Json
  | num : Int → Json
  | str : String → Json
  | arr : List Json → Json
  | obj : List (String × Json) → Json
deriving Repr

/-- First-match lookup in a JSON object, the meaning of `d[k]` / `k in d`
for a Python dict with unique keys. -/
def jlookup (kvs : List (String × Json)) (k : String) : Option Json :=
  match kvs with
  | [] => none
  | (k', v) :: rest => if k' = k then some v else jlookup rest k

/-- Whether a byte is a UTF-8 continuation byte (0x80 to 0xBF). -/
def isCont (b : Nat) : Bool := 0x80 ≤ b && b ≤ 0xBF

/-- Strict UTF-8 decoding of a byte sequence into code points, the meaning
of `bytes.decode("utf-8")` in llm_services.py line 101: rejects overlong
encodings, surrogates and code points above U+10FFFF, returning `none`
exactly when Python raises `UnicodeDecodeError`. -/
def decodeUtf8 : List Nat → Option (List Nat)
  | [] => some []
  | b :: r =>
    if b ≤ 0x7F then
      (decodeUtf8 r).map (fun cs => b :: cs)
    else if 0xC2 ≤ b && b ≤ 0xDF then
      match r with
      | b1 :: r' =>
        if isCont b1 then
          (decodeUtf8 r').map (fun cs => ((b - 0xC0) * 0x40 + (b1 - 0x80)) :: cs)
        else none
      | _ => none
    else if 0xE0 ≤ b && b ≤ 0xEF then
      match r with
      | b1 :: b2 :: r' =>
        let firstOk :=
          if b = 0xE0 then 0xA0 ≤ b1 && b1 ≤ 0xBF
          else if b = 0xED then 0x80 ≤ b1 && b1 ≤ 0x9F
          else isCont b1
        if firstOk && isCont b2 then
          (decodeUtf8 r').map (fun cs =>
            ((b - 0xE0) * 0x1000 + (b1 - 0x80) * 0x40 + (b2 - 0x80)) :: cs)
        else none
      | _ => none
    else if 0xF0 ≤ b && b ≤ 0xF4 then
      match r with
      | b1 :: b2 :: b3 :: r' =>
        let firstOk :=
          if b = 0xF0 then 0x90 ≤ b1 && b1 ≤ 0xBF
          else if b = 0xF4 then 0x80 ≤ b1 && b1 ≤ 0x8F
          else isCont b1
        if firstOk && isCont b2 && isCont b3 then
          (decodeUtf8 r').map (fun cs =>
            ((b - 0xF0) * 0x40000 + (b1 - 0x80) * 0x1000 +
              (b2 - 0x80) * 0x40 + (b3 - 0x80)) :: cs)
        else none
      | _ => none
    else none

/-- Decoded text of a byte sequence, when it is valid UTF-8. -/
def decodeUtf8Str (bytes : List Nat) : Option String :=
  (decodeUtf8 bytes).map (fun cs => String.mk (cs.map Char.ofNat))

/-- Pydantic schema `ExtractedField` of llm_services.py: a field name and
an arbitrary (`Any`) value. -/
structure ExtractedField where
  field_name : String
  field_value : Json
deriving Repr

/-- Pydantic schema `DocumentExtract` of llm_services.py. -/
structure DocumentExtract where
  file_name : String
  extracted_data : List ExtractedField
  summary : String
deriving Repr

/-- Validation of one element of `extracted_data`, the meaning of pydantic
validation against `ExtractedField`: requires a JSON object with a string
`field_name` and any `field_value`. -/
def validateField (j : Json) : Except String ExtractedField :=
  match j with
  | .obj kvs =>
    match jlookup kvs "field_name", jlookup kvs "field_value" with
    | some (.str n), some v => .ok ⟨n, v⟩
    | _, _ => .error "validation error for ExtractedField"
  | _ => .error "validation error for ExtractedField"

/-- Validation of a list of JSON values into extracted fields. -/
def validateFields : List Json → Except String (List ExtractedField)
  | [] => .ok []
  | j :: rest =>
    match validateField j, validateFields rest with
    | .ok f, .ok fs => .ok (f :: fs)
    | .error m, _ => .error m
    | _, .error m => .error m

/-- Validation of a JSON value into a `DocumentExtract`, the meaning of
`DocumentExtract.model_validate(data_dict)` in llm_services.py line 133:
requires an object with string `file_name`, list `extracted_data` of
valid fields, and string `summary`; anything else raises (is an error). -/
def validateExtract (j : Json) : Except String DocumentExtract :=
  match j with
  | .obj kvs =>
    match jlookup kvs "file_name", jlookup kvs "extracted_data", jlookup kvs "summary" with
    | some (.str fn), some (.arr xs), some (.str s) =>
      match validateFields xs with
      | .ok fs => .ok ⟨fn, fs, s⟩
      | .error m => .error m
    | _, _, _ => .error "validation error for DocumentExtract"
  | _ => .error "validation error for DocumentExtract"

/-- The hard-coded BOL target field list of llm_services.py. -/
def BOL_TARGET_FIELDS : List String :=
  ["BOL Number", "Carrier Name", "Shipper Name", "Consignee Name", "Notify Party",
   "Port of Loading", "Port of Discharge", "Vessel Name", "Date of Issue",
   "Description of Goods", "Freight Class", "Declared Value",
   "Hazardous Material Information", "Signature"]

/-- The prompt built by `extraction_prompt_text_template.format(...)` in
llm_services.py lines 106 to 111 (field descriptions elided into the
trailing constant; the prompt text feeds only the external model call,
so no observable behaviour of the embedding depends on its wording). -/
def extraction_prompt_text (file_name additional_context : String) : String :=
  "You are a specialized Bill of Lading (BOL) extraction AI. " ++
  "Your task is to extract ONLY the fields listed below.\n\nDocument: " ++
  file_name ++ "\n\n" ++ additional_context ++ "\n\nEXTRACT ONLY THESE FIELDS:\n- " ++
  String.intercalate ", " BOL_TARGET_FIELDS ++
  "\n\nINSTRUCTIONS:\n- Use EXACT field names from the list above.\n" ++
  "- If a field is not present, omit it.\n" ++
  "- If a signature is visible, set \"Signature\" to \"Signed\".\n" ++
  "- Return a JSON with fields \x27file_name\x27, \x27extracted_data\x27 " ++
  "(list of field_name/value), and \x27summary\x27.\n"

/-- One element of `prompt_parts`: either prompt text or the raw bytes
attached as an inline multimodal payload. -/
inductive PromptPart where
  | text : String → PromptPart
  | inline_data : String → List Nat → PromptPart

/-- The `prompt_parts` list of llm_services.py lines 113 to 115. -/
def promptParts (prompt_text : String) (mime_type : String) (file_content : List Nat) :
    List PromptPart :=
  if mime_type = "text/plain" then [.text prompt_text]
  else [.text prompt_text, .inline_data mime_type file_content]

/-- Outcome of the external effects inside the `try` block of
llm_services.py lines 122 to 133: the model call
`model.generate_content_async` (with candidate and part access) composed
with `json.loads` on the returned text. `callRaises` is the model call or
response access raising, `parseRaises` is `json.loads` raising on the
returned text, `parsed` is both succeeding with the given JSON value. -/
inductive ModelOutcome where
  | callRaises : String → ModelOutcome
  | parseRaises : String → ModelOutcome
  | parsed : Json → ModelOutcome

/-- The `DocumentExtract` built in the `except` branch of
llm_services.py lines 137 to 141. -/
def errorExtract (file_name msg : String) : DocumentExtract :=
  ⟨file_name, [⟨"Error", .str msg⟩], "Extraction failed due to an internal error."⟩

/-- Lines 98 to 104 of llm_services.py: for `text/plain` input, decode the
bytes as UTF-8 into the additional context; a decode failure raises
`ValueError("Invalid UTF-8 text file.")`, which is NOT inside the
`try` block and therefore escapes the function. -/
def decodeStep (file_content : List Nat) (mime_type : String) : Except String String :=
  if mime_type = "text/plain" then
    match decodeUtf8Str file_content with
    | some t => .ok ("Document content:\n" ++ t)
    | none => .error "Invalid UTF-8 text file."
  else .ok ""

/-- Lines 128 to 133 of llm_services.py applied to the parsed JSON value:
default `file_name` into the dict when the key is absent, then validate.
When `json.loads` returned a non-object, the source raises inside the
`try` block (at the membership test, the item assignment, or
`model_validate`), so every non-object is an error here. -/
def validateResponse (data_dict : Json) (file_name : String) : Except String DocumentExtract :=
  match data_dict with
  | .obj kvs =>
    match jlookup kvs "file_name" with
    | some _ => validateExtract (.obj kvs)
    | none => validateExtract (.obj (kvs ++ [("file_name", .str file_name)]))
  | _ => .error "TypeError: response is not a JSON object"

/-- The extraction service `extract_bill_of_lading_fields` of
llm_services.py lines 91 to 141. `Except.error msg` models the function
raising `ValueError(msg)`; every exception arising inside the `try`
block is swallowed into `errorExtract`. -/
def extract_bill_of_lading_fields (file_content : List Nat) (file_name mime_type : String)
    (outcome : ModelOutcome) : Except String DocumentExtract :=
  match decodeStep file_content mime_type with
  | .error m => .error m
  | .ok additional_context =>
    let prompt_text := extraction_prompt_text file_name additional_context
    let _parts := promptParts prompt_text mime_type file_content
    .ok (match outcome with
      | .callRaises msg => errorExtract file_name msg
      | .parseRaises msg => errorExtract file_name msg
      | .parsed j =>
        match validateResponse j file_name with
        | .ok d => d
        | .error msg => errorExtract file_name msg)

/-- One stored entry of the document store: the dict
`{"content": contents, "mime_type": mime_type}` of main_fastapi.py. -/
structure StoredDoc where
  content : List Nat
  mime_type : String
deriving Repr

/-- The module-level `agent_config` dict of main_fastapi.py line 26. -/
structure AgentConfig where
  fields_to_extract : List String
  special_instructions : String
deriving Repr

/-- The module-level mutable state of main_fastapi.py lines 25 to 26:
the document store (a Python dict, modelled as an insertion-ordered
association list with unique keys) and the agent configuration. -/
structure ServerState where
  document_store : List (String × StoredDoc)
  agent_config : AgentConfig
deriving Repr

/-- Python dict assignment `document_store[k] = v`: replace the value at
an existing key in place, otherwise append the new pair. -/
def storeSet (s : List (String × StoredDoc)) (k : String) (v : StoredDoc) :
    List (String × StoredDoc) :=
  match s with
  | [] => [(k, v)]
  | (k', v') :: rest =>
    if k' = k then (k, v) :: rest else (k', v') :: storeSet rest k v

/-- Python dict lookup `document_store.get(k)`. -/
def storeGet (s : List (String × StoredDoc)) (k : String) : Option StoredDoc :=
  match s with
  | [] => none
  | (k', v') :: rest => if k' = k then some v' else storeGet rest k

/-- An uploaded file as the handlers see it: filename, content type and
bytes. FastAPI gives `Optional[str]` for the first two; the empty string
also stands for `None`, since the handlers test only Python truthiness. -/
structure UploadFile where
  filename : String
  content_type : String
  content : List Nat
deriving Repr

/-- The guard `if not file.filename or not file.content_type` of
main_fastapi.py lines 37 and 75 (Python truthiness: `None` or empty). -/
def missingMeta (file : UploadFile) : Bool :=
  file.filename = "" || file.content_type = ""

/-- Result of an endpoint: a response value, or a raised `HTTPException`
with status code and detail. -/
inductive ApiResult (α : Type) where
  | ok : α → ApiResult α
  | httpError : Nat → String → ApiResult α
deriving Repr

/-- Endpoint `POST /setup/upload_extract/` of main_fastapi.py lines 29
to 56. The two optional form parameters are only logged; they are not
passed to the extraction call. The store is written before extraction;
a `ValueError` from extraction becomes a 400. (The catch-all 500 branch
of line 54 is unreachable in the embedding because the only exception
escaping `extract_bill_of_lading_fields` is the decode `ValueError`.) -/
def setup_upload_and_extract (file : UploadFile)
    (special_instructions target_fields_json : Option String)
    (outcome : ModelOutcome) (st : ServerState) :
    ServerState × ApiResult DocumentExtract :=
  if missingMeta file then
    (st, .httpError 400 "Filename and content type are required.")
  else
    let st' := { st with
      document_store :=
        storeSet st.document_store file.filename ⟨file.content, file.content_type⟩ }
    match extract_bill_of_lading_fields file.content file.filename file.content_type outcome with
    | .ok d => (st', .ok d)
    | .error m => (st', .httpError 400 m)

/-- Request body of `POST /setup/configure_agent/`. -/
structure AgentConfigPayload where
  fields_to_extract : List String
  special_instructions : String
deriving Repr

/-- Response of `POST /setup/configure_agent/`. -/
structure ConfigureAgentResponse where
  message : String
  current_config : AgentConfig
deriving Repr

/-- Endpoint `POST /setup/configure_agent/` of main_fastapi.py lines 64
to 70: overwrites both components of the global `agent_config` with the
payload and echoes the updated configuration back. -/
def configure_agent_endpoint (config : AgentConfigPayload) (st : ServerState) :
    ServerState × ConfigureAgentResponse :=
  let newConfig : AgentConfig := ⟨config.fields_to_extract, config.special_instructions⟩
  ({ st with agent_config := newConfig },
   ⟨"Agent configuration finalized successfully!", newConfig⟩)

/-- Endpoint `POST /deploy/process_document/` of main_fastapi.py lines 73
to 93: same shape as the setup upload endpoint, without form fields. -/
def deploy_process_document (file : UploadFile) (outcome : ModelOutcome)
    (st : ServerState) : ServerState × ApiResult DocumentExtract :=
  if missingMeta file then
    (st, .httpError 400 "Filename and content type are required.")
  else
    let st' := { st with
      document_store :=
        storeSet st.document_store file.filename ⟨file.content, file.content_type⟩ }
    match extract_bill_of_lading_fields file.content file.filename file.content_type outcome with
    | .ok d => (st', .ok d)
    | .error m => (st', .httpError 400 m)

/-- Response of `POST /deploy/ask_question/` on the success path. -/
structure AskAnswer where
  file_name : String
  question : String
  answer : String
deriving Repr

/-- Lookup `payload.get(k)` for the `Dict[str, str]` request body. -/
def payloadGet (payload : List (String × String)) (k : String) : Option String :=
  match payload with
  | [] => none
  | (k', v) :: rest => if k' = k then some v else payloadGet rest k

/-- Python truthiness test `not x` for an optional string. -/
def isBlank (s : Option String) : Bool :=
  match s with
  | none => true
  | some t => t = ""

/-- Endpoint `POST /deploy/ask_question/` of main_fastapi.py lines 96 to
113. It performs no model call at all (the handler takes no
`ModelOutcome`): a missing name or question is a 400, an unknown file
name is a 404, and otherwise the static disabled-feature answer is
returned. The stored entry is read but only its presence is used. -/
def deploy_ask_question (payload : List (String × String)) (st : ServerState) :
    ServerState × ApiResult AskAnswer :=
  let file_name := payloadGet payload "file_name"
  let question := payloadGet payload "question"
  if isBlank file_name || isBlank question then
    (st, .httpError 400 "File name and question are required.")
  else
    let fn := file_name.getD ""
    let q := question.getD ""
    match storeGet st.document_store fn with
    | none => (st, .httpError 404 ("Document \x27" ++ fn ++ "\x27 not found."))
    | some _ => (st, .ok ⟨fn, q, "Q&A feature is currently disabled in the BOL-only mode."⟩)

/-- Python `str.strip()`: drop leading and trailing whitespace
characters. -/
def pyStrip (s : String) : String :=
  String.mk (((s.data.dropWhile Char.isWhitespace).reverse.dropWhile
    Char.isWhitespace).reverse)

/-- The guard of the `Set Final Agent Configuration` button in
app_streamlit.py lines 263 to 272: when the selected field list is empty
and the special instructions are blank after stripping, the UI shows a
warning and does not call the API (`none`); otherwise it builds the
payload it sends to `/setup/configure_agent/`. -/
def set_final_agent_configuration_click (selected_fields : List String)
    (instructions : String) : Option AgentConfigPayload :=
  if selected_fields.isEmpty && (pyStrip instructions = "") then none
  else some ⟨selected_fields, instructions⟩

/-- A request to any of the four endpoints of the API layer. -/
inductive Request where
  | uploadExtract : UploadFile → Option String → Option String → ModelOutcome → Request
  | configureAgent : AgentConfigPayload → Request
  | processDocument : UploadFile → ModelOutcome → Request
  | askQuestion : List (String × String) → Request

/-- State transition of one handled request, projecting away the
response. -/
def handleRequest (r : Request) (st : ServerState) : ServerState :=
  match r with
  | .uploadExtract f si tf o => (setup_upload_and_extract f si tf o st).1
  | .configureAgent c => (configure_agent_endpoint c st).1
  | .processDocument f o => (deploy_process_document f o st).1
  | .askQuestion p => (deploy_ask_question p st).1

/-- An upload through one of the two uploading endpoints (claim C5 talks
about sequences of these). -/
inductive UploadEvent where
  | setup : UploadFile → Option String → Option String → ModelOutcome → UploadEvent
  | deploy : UploadFile → ModelOutcome → UploadEvent

/-- The file carried by an upload event. -/
def UploadEvent.file : UploadEvent → UploadFile
  | .setup f _ _ _ => f
  | .deploy f _ => f

/-- State transition of one upload event. -/
def applyUpload (e : UploadEvent) (st : ServerState) : ServerState :=
  match e with
  | .setup f si tf o => (setup_upload_and_extract f si tf o st).1
  | .deploy f o => (deploy_process_document f o st).1

/-- Running a sequence of uploads in order. -/
def runUploads (es : List UploadEvent) (st : ServerState) : ServerState :=
  es.foldl (fun s e => applyUpload e s) st

/-! Helper lemmas about the store and the endpoint state transitions. -/

theorem storeGet_storeSet_self (s : List (String × StoredDoc)) (k : String) (v : StoredDoc) :
    storeGet (storeSet s k v) k = some v := by
  induction s with
  | nil => simp [storeSet, storeGet]
  | cons p rest ih =>
    obtain ⟨k0, v0⟩ := p
    by_cases h : k0 = k <;> simp [storeSet, storeGet, h, ih]

theorem storeGet_isSome_storeSet (s : List (String × StoredDoc)) (k k' : String)
    (v : StoredDoc) :
    (storeGet s k').isSome = true → (storeGet (storeSet s k v) k').isSome = true := by
  induction s with
  | nil => intro h; simp [storeGet] at h
  | cons p rest ih =>
    obtain ⟨k0, v0⟩ := p
    intro h
    by_cases h0 : k0 = k <;> by_cases h1 : k0 = k' <;>
      simp_all [storeGet, storeSet]

theorem setup_upload_and_extract_fst (f : UploadFile) (si tf : Option String)
    (o : ModelOutcome) (st : ServerState) :
    (setup_upload_and_extract f si tf o st).1 =
      if missingMeta f then st
      else { st with
        document_store :=
          storeSet st.document_store f.filename ⟨f.content, f.content_type⟩ } := by
  unfold setup_upload_and_extract
  cases hm : missingMeta f <;> simp [hm] <;>
    cases hE : extract_bill_of_lading_fields f.content f.filename f.content_type o <;>
      simp [hE]

theorem deploy_process_document_fst (f : UploadFile) (o : ModelOutcome) (st : ServerState) :
    (deploy_process_document f o st).1 =
      if missingMeta f then st
      else { st with
        document_store :=
          storeSet st.document_store f.filename ⟨f.content, f.content_type⟩ } := by
  unfold deploy_process_document
  cases hm : missingMeta f <;> simp [hm] <;>
    cases hE : extract_bill_of_lading_fields f.content f.filename f.content_type o <;>
      simp [hE]

theorem deploy_ask_question_fst (p : List (String × String)) (st : ServerState) :
    (deploy_ask_question p st).1 = st := by
  unfold deploy_ask_question
  dsimp only
  split
  · rfl
  · split <;> rfl

theorem setup_upload_and_extract_snd (f : UploadFile) (si tf : Option String)
    (o : ModelOutcome) (st st' : ServerState) :
    (setup_upload_and_extract f si tf o st).2 = (setup_upload_and_extract f si tf o st').2 := by
  unfold setup_upload_and_extract
  cases hm : missingMeta f <;> simp [hm] <;>
    cases hE : extract_bill_of_lading_fields f.content f.filename f.content_type o <;>
      simp [hE]

theorem deploy_process_document_snd (f : UploadFile) (o : ModelOutcome) (st st' : ServerState) :
    (deploy_process_document f o st).2 = (deploy_process_document f o st').2 := by
  unfold deploy_process_document
  cases hm : missingMeta f <;> simp [hm] <;>
    cases hE : extract_bill_of_lading_fields f.content f.filename f.content_type o <;>
      simp [hE]

theorem decodeStep_ok (content : List Nat) (mt : String)
    (hdec : mt = "text/plain" → (decodeUtf8 content).isSome = true) :
    ∃ ctx, decodeStep content mt = .ok ctx := by
  unfold decodeStep
  by_cases h : mt = "text/plain"
  · have hs := hdec h
    cases hd : decodeUtf8 content with
    | none => rw [hd] at hs; simp at hs
    | some cs =>
      refine ⟨"Document content:\n" ++ String.mk (cs.map Char.ofNat), ?_⟩
      simp [h, decodeUtf8Str, hd]
  · refine ⟨"", ?_⟩
    simp [h]

theorem extract_parsed_eq (content : List Nat) (fn mt : String) (j : Json)
    (hdec : mt = "text/plain" → (decodeUtf8 content).isSome = true) :
    extract_bill_of_lading_fields content fn mt (.parsed j) =
      .ok (match validateResponse j fn with
            | .ok d => d
            | .error msg => errorExtract fn msg) := by
  obtain ⟨ctx, hctx⟩ := decodeStep_ok content mt hdec
  unfold extract_bill_of_lading_fields
  rw [hctx]

theorem extract_callRaises_eq (content : List Nat) (fn mt msg : String)
    (hdec : mt = "text/plain" → (decodeUtf8 content).isSome = true) :
    extract_bill_of_lading_fields content fn mt (.callRaises msg) =
      .ok (errorExtract fn msg) := by
  obtain ⟨ctx, hctx⟩ := decodeStep_ok content mt hdec
  unfold extract_bill_of_lading_fields
  rw [hctx]

theorem extract_parseRaises_eq (content : List Nat) (fn mt msg : String)
    (hdec : mt = "text/plain" → (decodeUtf8 content).isSome = true) :
    extract_bill_of_lading_fields content fn mt (.parseRaises msg) =
      .ok (errorExtract fn msg) := by
  obtain ⟨ctx, hctx⟩ := decodeStep_ok content mt hdec
  unfold extract_bill_of_lading_fields
  rw [hctx]

theorem validateExtract_file_name (kvs : List (String × Json)) (d : DocumentExtract)
    (h : validateExtract (.obj kvs) = .ok d) :
    jlookup kvs "file_name" = some (.str d.file_name) := by
  have h' : (match jlookup kvs "file_name", jlookup kvs "extracted_data",
      jlookup kvs "summary" with
    | some (.str fn), some (.arr xs), some (.str s) =>
      match validateFields xs with
      | .ok fs => Except.ok (⟨fn, fs, s⟩ : DocumentExtract)
      | .error m => Except.error m
    | _, _, _ => Except.error "validation error for DocumentExtract") = .ok d := h
  split at h'
  · split at h'
    · injection h' with h2
      subst h2
      simp_all
    · simp at h'
  · simp at h'

theorem jlookup_append_self (kvs : List (String × Json)) (k : String) (v : Json)
    (h : jlookup kvs k = none) :
    jlookup (kvs ++ [(k, v)]) k = some v := by
  induction kvs with
  | nil => simp [jlookup]
  | cons p rest ih =>
    obtain ⟨k0, v0⟩ := p
    by_cases h0 : k0 = k <;> simp_all [jlookup]

/-! Claim theorems. -/

/-- C3: for every uploaded file and every two values of the optional
`special_instructions` and `target_fields_json` form parameters, the
upload-and-extract operation produces the same state and the same
extraction result with the model call held fixed: the parameters are
accepted but never reach the extraction path. -/
theorem C3_form_params_ignored (file : UploadFile) (si1 tf1 si2 tf2 : Option String)
    (o : ModelOutcome) (st : ServerState) :
    setup_upload_and_extract file si1 tf1 o st = setup_upload_and_extract file si2 tf2 o st :=
  rfl

/-- C4: extraction is stateless: with the model call held fixed, the
response of the process-document endpoint (which delegates to
`extract_bill_of_lading_fields`) does not depend on the prior server
state, the call leaves `agent_config` untouched, its store effect does
not depend on the extraction outcome, and re-invoking the endpoint with
the identical file yields the identical response, in particular a
`DocumentExtract` with the same `file_name`. -/
theorem C4_extraction_stateless (file : UploadFile) (o o' : ModelOutcome) (st st' : ServerState) :
    ((deploy_process_document file o st).2 = (deploy_process_document file o st').2) ∧
    ((deploy_process_document file o st).1.agent_config = st.agent_config) ∧
    ((deploy_process_document file o st).1 = (deploy_process_document file o' st).1) ∧
    ((deploy_process_document file o ((deploy_process_document file o st).1)).2 =
      (deploy_process_document file o st).2) ∧
    (∀ d d', (deploy_process_document file o st).2 = .ok d →
      (deploy_process_document file o ((deploy_process_document file o st).1)).2 = .ok d' →
      d.file_name = d'.file_name) := by
  refine ⟨deploy_process_document_snd file o st st', ?_, ?_, ?_, ?_⟩
  · rw [deploy_process_document_fst]
    cases missingMeta file <;> simp
  · rw [deploy_process_document_fst, deploy_process_document_fst]
  · exact deploy_process_document_snd file o _ st
  · intro d d' h1 h2
    rw [deploy_process_document_snd file o ((deploy_process_document file o st).1) st, h1] at h2
    injection h2 with h3
    rw [h3]

/-- C7: every configure-agent call, also with empty fields and empty
instructions, is accepted by the API: it replaces both components of the
process-wide agent configuration wholesale with the supplied values,
touches nothing else, and echoes the supplied configuration back; only
the Streamlit button guard refuses the all-empty configuration before
any API call is made. -/
theorem C7_configure_agent (config : AgentConfigPayload) (st : ServerState) :
    (configure_agent_endpoint config st).1.agent_config =
      ⟨config.fields_to_extract, config.special_instructions⟩ ∧
    (configure_agent_endpoint config st).2.current_config =
      ⟨config.fields_to_extract, config.special_instructions⟩ ∧
    (configure_agent_endpoint config st).2.message =
      "Agent configuration finalized successfully!" ∧
    (configure_agent_endpoint config st).1.document_store = st.document_store ∧
    set_final_agent_configuration_click [] "" = none :=
  ⟨rfl, rfl, rfl, rfl, rfl⟩

/-- C9: no endpoint of the API layer ever removes a key from the
document store: every file name stored before a request is still stored
after it, whichever endpoint handled the request. -/
theorem C9_store_keys_monotone (r : Request) (st : ServerState) (k : String)
    (h : (storeGet st.document_store k).isSome = true) :
    (storeGet (handleRequest r st).document_store k).isSome = true := by
  cases r with
  | uploadExtract f si tf o =>
    show (storeGet (setup_upload_and_extract f si tf o st).1.document_store k).isSome = true
    rw [setup_upload_and_extract_fst]
    cases missingMeta f with
    | false => simpa using storeGet_isSome_storeSet st.document_store f.filename k _ h
    | true => simpa using h
  | configureAgent c => exact h
  | processDocument f o =>
    show (storeGet (deploy_process_document f o st).1.document_store k).isSome = true
    rw [deploy_process_document_fst]
    cases missingMeta f with
    | false => simpa using storeGet_isSome_storeSet st.document_store f.filename k _ h
    | true => simpa using h
  | askQuestion p =>
    show (storeGet (deploy_ask_question p st).1.document_store k).isSome = true
    rw [deploy_ask_question_fst]
    exact h

/-- Witness for C9 at a concrete state and request: a stored entry for
"a.txt" survives an ask-question request. -/
theorem C9_store_keys_monotone_witness :
    (storeGet [("a.txt", ⟨[104], "text/plain"⟩)] "a.txt").isSome = true ∧
    (storeGet (handleRequest (.askQuestion [])
      ⟨[("a.txt", ⟨[104], "text/plain"⟩)], ⟨[], ""⟩⟩).document_store "a.txt").isSome = true :=
  ⟨by rfl, C9_store_keys_monotone (.askQuestion [])
    ⟨[("a.txt", ⟨[104], "text/plain"⟩)], ⟨[], ""⟩⟩ "a.txt" (by rfl)⟩

/-- C10: both upload endpoints write the uploaded bytes and MIME type
into the document store before attempting extraction, so an upload whose
extraction raises and is answered with an HTTP error status still leaves
the new entry in the store: the store update is not rolled back. -/
theorem C10_store_update_not_rolled_back (file : UploadFile) (si tf : Option String)
    (o : ModelOutcome) (st : ServerState)
    (h1 : ¬ file.filename = "") (h2 : ¬ file.content_type = "") :
    (∀ status detail, (setup_upload_and_extract file si tf o st).2 = .httpError status detail →
      storeGet (setup_upload_and_extract file si tf o st).1.document_store file.filename =
        some ⟨file.content, file.content_type⟩) ∧
    (∀ status detail, (deploy_process_document file o st).2 = .httpError status detail →
      storeGet (deploy_process_document file o st).1.document_store file.filename =
        some ⟨file.content, file.content_type⟩) := by
  have hm : missingMeta file = false := by simp [missingMeta, h1, h2]
  constructor
  · intro status detail _
    rw [setup_upload_and_extract_fst, hm]
    simpa using storeGet_storeSet_self st.document_store file.filename _
  · intro status detail _
    rw [deploy_process_document_fst, hm]
    simpa using storeGet_storeSet_self st.document_store file.filename _

/-- Witness for C10 at a concrete failing upload: a text/plain file with
the invalid UTF-8 byte 0xFF is answered with HTTP 400 yet its entry is in
the store afterwards. -/
theorem C10_store_update_not_rolled_back_witness :
    (setup_upload_and_extract ⟨"a.txt", "text/plain", [0xFF]⟩ none none
      (.callRaises "boom") ⟨[], ⟨[], ""⟩⟩).2 =
      .httpError 400 "Invalid UTF-8 text file." ∧
    storeGet (setup_upload_and_extract ⟨"a.txt", "text/plain", [0xFF]⟩ none none
      (.callRaises "boom") ⟨[], ⟨[], ""⟩⟩).1.document_store "a.txt" =
      some ⟨[0xFF], "text/plain"⟩ :=
  ⟨by rfl,
   (C10_store_update_not_rolled_back ⟨"a.txt", "text/plain", [0xFF]⟩ none none
      (.callRaises "boom") ⟨[], ⟨[], ""⟩⟩ (by simp) (by simp)).1
     400 "Invalid UTF-8 text file." (by rfl)⟩

/-- C2: whenever the model call, the JSON parsing of its response, or the
validation into the typed record fails (and the input itself decodes, so
the call is reached), `extract_bill_of_lading_fields` returns, rather
than raises, a `DocumentExtract` whose `file_name` is the input file
name, whose `extracted_data` is exactly one field named "Error" carrying
the failure message, and whose summary indicates failure. -/
theorem C2_errors_swallowed (content : List Nat) (fn mt : String)
    (hdec : mt = "text/plain" → (decodeUtf8 content).isSome = true) :
    (∀ msg, extract_bill_of_lading_fields content fn mt (.callRaises msg) =
      .ok ⟨fn, [⟨"Error", .str msg⟩], "Extraction failed due to an internal error."⟩) ∧
    (∀ msg, extract_bill_of_lading_fields content fn mt (.parseRaises msg) =
      .ok ⟨fn, [⟨"Error", .str msg⟩], "Extraction failed due to an internal error."⟩) ∧
    (∀ j msg, validateResponse j fn = .error msg →
      extract_bill_of_lading_fields content fn mt (.parsed j) =
        .ok ⟨fn, [⟨"Error", .str msg⟩], "Extraction failed due to an internal error."⟩) := by
  refine ⟨fun msg => extract_callRaises_eq content fn mt msg hdec,
          fun msg => extract_parseRaises_eq content fn mt msg hdec,
          fun j msg hval => ?_⟩
  rw [extract_parsed_eq content fn mt j hdec, hval]
  rfl

/-- Witness for C2 on concrete inputs: a failing model call, a failing
parse, and a failing validation each produce the sentinel record. -/
theorem C2_errors_swallowed_witness :
    extract_bill_of_lading_fields [104] "a.txt" "text/plain" (.callRaises "network down") =
      .ok ⟨"a.txt", [⟨"Error", .str "network down"⟩],
        "Extraction failed due to an internal error."⟩ ∧
    extract_bill_of_lading_fields [104] "a.txt" "text/plain"
        (.parsed (.str "not a dict")) =
      .ok ⟨"a.txt", [⟨"Error", .str "TypeError: response is not a JSON object"⟩],
        "Extraction failed due to an internal error."⟩ :=
  ⟨(C2_errors_swallowed [104] "a.txt" "text/plain" (fun _ => rfl)).1 "network down",
   (C2_errors_swallowed [104] "a.txt" "text/plain" (fun _ => rfl)).2.2
     (.str "not a dict") "TypeError: response is not a JSON object" (by rfl)⟩

/-- C1 counterexample: for the concrete text/plain upload whose single
byte 0xFF is not valid UTF-8, `extract_bill_of_lading_fields` raises
`ValueError("Invalid UTF-8 text file.")` instead of returning a
`DocumentExtract` with a sentinel "Error" field: the exception does pass
the service boundary, refuting the claim at this input. -/
theorem C1_counterexample :
    decodeUtf8 [0xFF] = none ∧
    (∀ o : ModelOutcome, extract_bill_of_lading_fields [0xFF] "doc.txt" "text/plain" o =
      .error "Invalid UTF-8 text file.") ∧
    (∀ (o : ModelOutcome) (d : DocumentExtract),
      ¬ extract_bill_of_lading_fields [0xFF] "doc.txt" "text/plain" o = .ok d) :=
  ⟨rfl, fun o => by cases o <;> rfl,
   fun o d h => by
    have hext : extract_bill_of_lading_fields [0xFF] "doc.txt" "text/plain" o =
        .error "Invalid UTF-8 text file." := by cases o <;> rfl
    rw [hext] at h
    simp at h⟩

/-- C1 amended: for every file uploaded with MIME type text/plain whose
bytes are not valid UTF-8, `extract_bill_of_lading_fields` raises
`ValueError("Invalid UTF-8 text file.")` (the decode happens before the
try block), and the upload endpoint catches it and answers HTTP 400 with
that message; no sentinel "Error" `DocumentExtract` is produced. -/
theorem C1_amended_invalid_utf8_raises (content : List Nat) (fn : String)
    (si tf : Option String) (o : ModelOutcome) (st : ServerState)
    (hbad : decodeUtf8 content = none) (hfn : ¬ fn = "") :
    extract_bill_of_lading_fields content fn "text/plain" o =
      .error "Invalid UTF-8 text file." ∧
    (setup_upload_and_extract ⟨fn, "text/plain", content⟩ si tf o st).2 =
      .httpError 400 "Invalid UTF-8 text file." := by
  have hstep : decodeStep content "text/plain" = .error "Invalid UTF-8 text file." := by
    simp [decodeStep, decodeUtf8Str, hbad]
  have hext : extract_bill_of_lading_fields content fn "text/plain" o =
      .error "Invalid UTF-8 text file." := by
    unfold extract_bill_of_lading_fields
    rw [hstep]
  refine ⟨hext, ?_⟩
  have hm : missingMeta ⟨fn, "text/plain", content⟩ = false := by
    simp [missingMeta, hfn]
  unfold setup_upload_and_extract
  rw [hm]
  simp only [Bool.false_eq_true, if_false]
  rw [hext]

/-- Witness for the amended C1 at the concrete byte 0xFF. -/
theorem C1_amended_invalid_utf8_raises_witness :
    decodeUtf8 [0xFF] = none ∧
    extract_bill_of_lading_fields [0xFF] "doc.txt" "text/plain" (.callRaises "x") =
      .error "Invalid UTF-8 text file." ∧
    (setup_upload_and_extract ⟨"doc.txt", "text/plain", [0xFF]⟩ none none
      (.callRaises "x") ⟨[], ⟨[], ""⟩⟩).2 = .httpError 400 "Invalid UTF-8 text file." :=
  ⟨rfl,
   (C1_amended_invalid_utf8_raises [0xFF] "doc.txt" none none (.callRaises "x")
      ⟨[], ⟨[], ""⟩⟩ rfl (by simp)).1,
   (C1_amended_invalid_utf8_raises [0xFF] "doc.txt" none none (.callRaises "x")
      ⟨[], ⟨[], ""⟩⟩ rfl (by simp)).2⟩

/-- C5: after any sequence of uploads through either upload endpoint ending
with an upload of file name `n`, the document store maps `n` to the bytes
and MIME type of that most recent upload (last write wins), and a
subsequent ask-question request for `n` finds the entry present and is
answered with the static disabled-feature message. -/
theorem C5_last_write_wins (es : List UploadEvent) (e : UploadEvent) (n q : String)
    (st : ServerState) (hn : e.file.filename = n) (hne : ¬ n = "")
    (hct : ¬ e.file.content_type = "") (hq : ¬ q = "") :
    storeGet (runUploads (es ++ [e]) st).document_store n =
      some ⟨e.file.content, e.file.content_type⟩ ∧
    (deploy_ask_question [("file_name", n), ("question", q)]
      (runUploads (es ++ [e]) st)).2 =
      .ok ⟨n, q, "Q&A feature is currently disabled in the BOL-only mode."⟩ := by
  have hm : missingMeta e.file = false := by
    simp [missingMeta, hn, hne, hct]
  have hrun : runUploads (es ++ [e]) st = applyUpload e (runUploads es st) := by
    simp [runUploads, List.foldl_append]
  have hstore : (applyUpload e (runUploads es st)).document_store =
      storeSet (runUploads es st).document_store e.file.filename
        ⟨e.file.content, e.file.content_type⟩ := by
    cases e with
    | setup f si tf o =>
      show (setup_upload_and_extract f si tf o _).1.document_store = _
      rw [setup_upload_and_extract_fst]
      simp_all [UploadEvent.file]
    | deploy f o =>
      show (deploy_process_document f o _).1.document_store = _
      rw [deploy_process_document_fst]
      simp_all [UploadEvent.file]
  have hget : storeGet (runUploads (es ++ [e]) st).document_store n =
      some ⟨e.file.content, e.file.content_type⟩ := by
    rw [hrun, hstore, hn]
    exact storeGet_storeSet_self _ n _
  refine ⟨hget, ?_⟩
  unfold deploy_ask_question
  have hp1 : payloadGet [("file_name", n), ("question", q)] "file_name" = some n := by
    simp [payloadGet]
  have hp2 : payloadGet [("file_name", n), ("question", q)] "question" = some q := by
    simp [payloadGet]
  rw [hp1, hp2]
  simp [isBlank, hne, hq, hget]

/-- Witness for C5 with a concrete pair of uploads under the same name:
the second upload's bytes are the ones stored and ask-question succeeds. -/
theorem C5_last_write_wins_witness :
    storeGet (runUploads
      ([.deploy ⟨"a.txt", "text/plain", [104]⟩ (.callRaises "x")] ++
        [.deploy ⟨"a.txt", "text/plain", [105, 106]⟩ (.callRaises "x")])
      ⟨[], ⟨[], ""⟩⟩).document_store "a.txt" = some ⟨[105, 106], "text/plain"⟩ ∧
    (deploy_ask_question [("file_name", "a.txt"), ("question", "who")]
      (runUploads
        ([.deploy ⟨"a.txt", "text/plain", [104]⟩ (.callRaises "x")] ++
          [.deploy ⟨"a.txt", "text/plain", [105, 106]⟩ (.callRaises "x")])
        ⟨[], ⟨[], ""⟩⟩)).2 =
      .ok ⟨"a.txt", "who", "Q&A feature is currently disabled in the BOL-only mode."⟩ :=
  C5_last_write_wins [.deploy ⟨"a.txt", "text/plain", [104]⟩ (.callRaises "x")]
    (.deploy ⟨"a.txt", "text/plain", [105, 106]⟩ (.callRaises "x"))
    "a.txt" "who" ⟨[], ⟨[], ""⟩⟩ rfl (by decide) (by decide) (by decide)

/-- C6: an ask-question request with non-empty file name and question is
answered 404 when the file name was never stored, and with the static
disabled-feature answer when it is present; the handler contains no model
call at all (it takes no `ModelOutcome`). -/
theorem C6_ask_question (p : List (String × String)) (n q : String) (st : ServerState)
    (hfn : payloadGet p "file_name" = some n) (hq : payloadGet p "question" = some q)
    (hn : ¬ n = "") (hqq : ¬ q = "") :
    (storeGet st.document_store n = none →
      (deploy_ask_question p st).2 =
        .httpError 404 ("Document \x27" ++ n ++ "\x27 not found.")) ∧
    (∀ doc, storeGet st.document_store n = some doc →
      (deploy_ask_question p st).2 =
        .ok ⟨n, q, "Q&A feature is currently disabled in the BOL-only mode."⟩) := by
  unfold deploy_ask_question
  rw [hfn, hq]
  simp only [isBlank]
  constructor
  · intro habs
    simp [hn, hqq, habs]
  · intro doc hsome
    simp [hn, hqq, hsome]

/-- Witness for C6: 404 on an empty store, the static answer once the
document is stored. -/
theorem C6_ask_question_witness :
    (deploy_ask_question [("file_name", "a.txt"), ("question", "who")]
      ⟨[], ⟨[], ""⟩⟩).2 = .httpError 404 "Document \x27a.txt\x27 not found." ∧
    (deploy_ask_question [("file_name", "a.txt"), ("question", "who")]
      ⟨[("a.txt", ⟨[104], "text/plain"⟩)], ⟨[], ""⟩⟩).2 =
      .ok ⟨"a.txt", "who", "Q&A feature is currently disabled in the BOL-only mode."⟩ := by
  constructor
  · have h := (C6_ask_question [("file_name", "a.txt"), ("question", "who")]
      "a.txt" "who" ⟨[], ⟨[], ""⟩⟩ (by rfl) (by rfl) (by simp) (by simp)).1 (by rfl)
    simpa using h
  · exact (C6_ask_question [("file_name", "a.txt"), ("question", "who")]
      "a.txt" "who" ⟨[("a.txt", ⟨[104], "text/plain"⟩)], ⟨[], ""⟩⟩
      (by rfl) (by rfl) (by simp) (by simp)).2 ⟨[104], "text/plain"⟩ (by rfl)

/-- C8: on a successful model call whose response parses to a JSON object,
when the object lacks the key `file_name` the validated record carries
the file name passed to the call, and when the key is present with a
string value the model-supplied value is kept. -/
theorem C8_file_name_defaulting (content : List Nat) (fn mt : String)
    (kvs : List (String × Json))
    (hdec : mt = "text/plain" → (decodeUtf8 content).isSome = true) :
    (∀ d, jlookup kvs "file_name" = none →
      validateExtract (.obj (kvs ++ [("file_name", .str fn)])) = .ok d →
      extract_bill_of_lading_fields content fn mt (.parsed (.obj kvs)) = .ok d ∧
        d.file_name = fn) ∧
    (∀ s d, jlookup kvs "file_name" = some (.str s) →
      validateExtract (.obj kvs) = .ok d →
      extract_bill_of_lading_fields content fn mt (.parsed (.obj kvs)) = .ok d ∧
        d.file_name = s) := by
  constructor
  · intro d hnone hval
    have hresp : validateResponse (.obj kvs) fn = .ok d := by
      have hred : validateResponse (.obj kvs) fn =
          (match jlookup kvs "file_name" with
            | some _ => validateExtract (.obj kvs)
            | none => validateExtract (.obj (kvs ++ [("file_name", .str fn)]))) := rfl
      rw [hred, hnone]
      exact hval
    refine ⟨?_, ?_⟩
    · rw [extract_parsed_eq content fn mt _ hdec, hresp]
    · have hlook := validateExtract_file_name _ _ hval
      rw [jlookup_append_self kvs "file_name" (.str fn) hnone] at hlook
      injection hlook with h1
      injection h1 with h2
      exact h2.symm
  · intro s d hsome hval
    have hresp : validateResponse (.obj kvs) fn = .ok d := by
      have hred : validateResponse (.obj kvs) fn =
          (match jlookup kvs "file_name" with
            | some _ => validateExtract (.obj kvs)
            | none => validateExtract (.obj (kvs ++ [("file_name", .str fn)]))) := rfl
      rw [hred, hsome]
      exact hval
    refine ⟨?_, ?_⟩
    · rw [extract_parsed_eq content fn mt _ hdec, hresp]
    · have hlook := validateExtract_file_name _ _ hval
      rw [hsome] at hlook
      injection hlook with h1
      injection h1 with h2
      exact h2.symm

/-- Witness for C8 on concrete model responses: one object without
`file_name` (defaulted to the input name) and one with a model-supplied
`file_name` (kept). -/
theorem C8_file_name_defaulting_witness :
    (extract_bill_of_lading_fields [104] "a.txt" "text/plain"
      (.parsed (.obj [("extracted_data", .arr []), ("summary", .str "ok")])) =
        .ok ⟨"a.txt", [], "ok"⟩) ∧
    (extract_bill_of_lading_fields [104] "a.txt" "text/plain"
      (.parsed (.obj [("file_name", .str "model.txt"), ("extracted_data", .arr []),
        ("summary", .str "ok")])) = .ok ⟨"model.txt", [], "ok"⟩) :=
  ⟨((C8_file_name_defaulting [104] "a.txt" "text/plain"
      [("extracted_data", .arr []), ("summary", .str "ok")] (fun _ => rfl)).1
      ⟨"a.txt", [], "ok"⟩ (by rfl) (by rfl)).1,
   ((C8_file_name_defaulting [104] "a.txt" "text/plain"
      [("file_name", .str "model.txt"), ("extracted_data", .arr []), ("summary", .str "ok")]
      (fun _ => rfl)).2
      "model.txt" ⟨"model.txt", [], "ok"⟩ (by rfl) (by rfl)).1⟩
